import Mathlib

/-!
Verification of the basic-pitch transcription plugin (`src/plugin.py`).

The file shallowly embeds `BasicPitchTranscribe.run` and the host-side
collaborators it calls.  The plugin source (`plugin.py`) is the authority for
the orchestration logic; the host song/track/clip collaborators
(`tuneflow_py`) and the transcription engine (`basic_pitch.inference.predict`)
are external to the repository and are modelled from the specification at
their interface boundary, as marked in the doc comments below.

Modelling conventions:
- seconds and tempo values are rationals (`ℚ`); ticks are integers (`ℤ`);
- the transcription engine is a black box, so its output (a list of
  instruments, each holding note events) is injected into `run` as part of a
  `HostEnv` value, together with a fault model for host-side note insertion;
- Python exceptions are explicit: `run` returns the resulting song state, the
  exception that propagated to the caller (if any), and the lifecycle state of
  the temporary audio file.
-/

/-- Track type tag (`TrackType.MIDI_TRACK` versus audio tracks). -/
inductive TrackType
  | midi
  | audio
deriving DecidableEq

/-- A note held by a MIDI clip, as created by `clip.create_note` at
`plugin.py:179-181`. -/
structure Note where
  pitch : ℤ
  velocity : ℤ
  start_tick : ℤ
  end_tick : ℤ
deriving DecidableEq

/-- A clip on a track.  Audio clips carry no notes in this model; the note
list is the content of a MIDI clip. -/
structure Clip where
  id : ℕ
  clip_start_tick : ℤ
  clip_end_tick : ℤ
  notes : List Note
deriving DecidableEq

/-- A track: a lane of clips. -/
structure Track where
  id : ℕ
  track_type : TrackType
  clips : List Clip
deriving DecidableEq

/-- The host song.  Modelled from the spec: the design treats the tempo as a
single anchor value for the whole operation (spec section 4.2), so the song
carries one `bpm` together with its tick `resolution` (ticks per quarter
note). -/
structure Song where
  tracks : List Track
  resolution : ℚ
  bpm : ℚ
deriving DecidableEq

/-- Modelled from the spec: host collaborator `song.get_track_by_id`. -/
def Song.get_track_by_id (song : Song) (track_id : ℕ) : Option Track :=
  song.tracks.find? (fun t => t.id == track_id)

/-- Modelled from the spec: host collaborator `track.get_clip_by_id`. -/
def Track.get_clip_by_id (track : Track) (clip_id : ℕ) : Option Clip :=
  track.clips.find? (fun c => c.id == clip_id)

/-- Modelled from the spec: host collaborator `song.get_track_index` -- index
of the track with the given id in the song's track list. -/
def Song.get_track_index (song : Song) (track_id : ℕ) : ℕ :=
  song.tracks.findIdx (fun t => t.id == track_id)

/-- Modelled from the spec: `song.get_tempo_event_at_tick(...).get_bpm()`
under the single-tempo anchor of spec section 4.2 -- the bpm in force is the
song's tempo value. -/
def Song.get_tempo_at_tick (song : Song) (_tick : ℤ) : ℚ :=
  song.bpm

/-- Modelled from the spec: host collaborator `song.tick_to_seconds` in a
fixed-tempo region -- one quarter note spans `60 / bpm` seconds and
`resolution` ticks. -/
def Song.tick_to_seconds (song : Song) (tick : ℤ) : ℚ :=
  tick * 60 / (song.resolution * song.bpm)

/-- Modelled from the spec: host collaborator `song.seconds_to_tick` in a
fixed-tempo region -- the inverse scaling, rounded to the nearest tick. -/
def Song.seconds_to_tick (song : Song) (seconds : ℚ) : ℤ :=
  round (seconds * song.resolution * song.bpm / 60)

/-- A raw note event returned by the engine (a `pretty_midi` note: onset and
offset in seconds relative to the audio buffer, pitch and velocity). -/
structure RawNote where
  pitch : ℤ
  velocity : ℤ
  start_seconds : ℚ
  end_seconds : ℚ
deriving DecidableEq

/-- An instrument of the engine's MIDI container (`midi_data.instruments`),
holding its detected notes. -/
structure Instrument where
  notes : List RawNote
deriving DecidableEq

/-- Exceptions that `run` and its collaborators can raise. -/
inductive Err
  | index_error
  | track_not_found
  | clip_not_found
  | engine_failure
  | insert_failure
deriving DecidableEq

/-- One entry of `trigger["entities"]`: the selection descriptor. -/
structure Entity where
  track_id : ℕ
  clip_id : ℕ
deriving DecidableEq

/-- One entry of the injected `clipAudioData` list: an audio payload with a
declared format (both modelled as opaque data). -/
structure AudioData where
  format : ℕ
  data : List ℕ
deriving DecidableEq

/-- The `params` dict of `run`: the trigger's entity list, the injected audio
payload list, and the numeric knobs forwarded to the engine. -/
structure Params where
  entities : List Entity
  clipAudioData : List AudioData
  onsetThreshold : ℚ
  frameThresh : ℚ
  minNoteLen : ℤ
  minPitch : ℤ
  maxPitch : ℤ
deriving DecidableEq

/-- Behaviour of the external collaborators during one invocation: the result
of the engine call (`predict` either returns instruments or raises), and a
fault model for host-side `create_note` (which may raise on a given note). -/
structure HostEnv where
  engineResult : Except Err (List Instrument)
  insertFault : Note → Option Err

/-- The observable outcome of one `run` invocation: the final song state, the
exception propagated to the caller (if any), and whether the temporary audio
file was created and closed. -/
structure RunResult where
  song : Song
  raised : Option Err
  tmpCreated : Bool
  tmpClosed : Bool
deriving DecidableEq

/-- The note built by the loop body at `plugin.py:176-181`: pitch and
velocity copied, onset and offset shifted by the clip start time and converted
to ticks. -/
def translateNote (song : Song) (clip_start_time : ℚ) (n : RawNote) : Note :=
  { pitch := n.pitch,
    velocity := n.velocity,
    start_tick := song.seconds_to_tick (n.start_seconds + clip_start_time),
    end_tick := song.seconds_to_tick (n.end_seconds + clip_start_time) }

/-- The raw note events of all instruments, in engine output order -- the
sequence traversed by the nested loops at `plugin.py:173-175`. -/
def allRawNotes : List Instrument → List RawNote
  | [] => []
  | i :: rest => i.notes ++ allRawNotes rest

/-- The insertion loop at `plugin.py:173-181`: translate each raw note and
insert it into the destination clip; a host fault on some insertion aborts
the loop (the Python exception propagates out of the `for` loops), leaving
the notes inserted so far. -/
def insertLoop (song : Song) (clip_start_time : ℚ) (fault : Note → Option Err)
    (inserted : List Note) : List RawNote → List Note × Option Err
  | [] => (inserted, none)
  | n :: rest =>
    let tn := translateNote song clip_start_time n
    match fault tn with
    | some e => (inserted, some e)
    | none => insertLoop song clip_start_time fault (inserted ++ [tn]) rest

/-- Shallow embedding of `BasicPitchTranscribe.run` (`plugin.py:140-185`).

Control flow mirrors the source:
1. `trigger["entities"][0]` -- raises `IndexError` if the entity list is
   empty;
2. track and clip lookup -- each raises on `None`;
3. tempo lookup and `clip_start_time` (pure reads);
4. `clipAudioData[0]` evaluated as the temp-file suffix argument -- raises
   `IndexError` on an empty list before any temporary file exists;
5. the temporary file is created and written;
6. `try`: engine call, then destination track creation at the source track's
   index, destination clip creation over the source clip's range, then the
   insertion loop; `except`: any exception here is logged and swallowed;
   `finally`: the temporary file is closed.

The frequency window (`floor`/`ceil` of `pitch_to_hz`) and the threshold
parameters feed only the external `predict` call, whose output is injected
through `env`; the window derivation is embedded separately as `minFreqOf` and
`maxFreqOf`. -/
def run (env : HostEnv) (freshTrackId freshClipId : ℕ) (song : Song)
    (params : Params) : RunResult :=
  match params.entities with
  | [] => ⟨song, some Err.index_error, false, false⟩
  | entity :: _ =>
    match song.get_track_by_id entity.track_id with
    | none => ⟨song, some Err.track_not_found, false, false⟩
    | some track =>
      match track.get_clip_by_id entity.clip_id with
      | none => ⟨song, some Err.clip_not_found, false, false⟩
      | some clip =>
        let clip_start_time := song.tick_to_seconds clip.clip_start_tick
        match params.clipAudioData with
        | [] => ⟨song, some Err.index_error, false, false⟩
        | _ :: _ =>
          match env.engineResult with
          | Except.error _ => ⟨song, none, true, true⟩
          | Except.ok instruments =>
            let idx := song.get_track_index track.id
            let inserted :=
              insertLoop song clip_start_time env.insertFault []
                (allRawNotes instruments)
            let newClip : Clip :=
              ⟨freshClipId, clip.clip_start_tick, clip.clip_end_tick,
                inserted.1⟩
            let newTrack : Track := ⟨freshTrackId, TrackType.midi, [newClip]⟩
            ⟨{ song with tracks := song.tracks.insertIdx idx newTrack },
              none, true, true⟩

/-- Modelled from the spec: the standard MIDI equal-temperament pitch to
frequency mapping used by `pitch_to_hz` (A4 = pitch 69 = 440 Hz). -/
noncomputable def pitch_to_hz (pitch : ℤ) : ℝ :=
  440 * (2 : ℝ) ^ (((pitch : ℝ) - 69) / 12)

/-- `minFreq = floor(pitch_to_hz(params["minPitch"]))` (`plugin.py:151`). -/
noncomputable def minFreqOf (minPitch : ℤ) : ℤ :=
  ⌊pitch_to_hz minPitch⌋

/-- `maxFreq = ceil(pitch_to_hz(params["maxPitch"]))` (`plugin.py:152`). -/
noncomputable def maxFreqOf (maxPitch : ℤ) : ℤ :=
  ⌈pitch_to_hz maxPitch⌉

/-! ### Concrete inputs used by counterexamples and witnesses -/

/-- A source audio clip starting at tick 0 and ending at tick 960. -/
def demoClip : Clip := ⟨0, 0, 960, []⟩

/-- The source audio track holding `demoClip`. -/
def demoTrack : Track := ⟨0, TrackType.audio, [demoClip]⟩

/-- A song with one audio track, 480 ticks per quarter note, 120 bpm. -/
def demoSong : Song := ⟨[demoTrack], 480, 120⟩

/-- Params selecting `demoTrack`/`demoClip` with one audio payload and the
plugin's default knob values. -/
def demoParams : Params := ⟨[⟨0, 0⟩], [⟨0, []⟩], 1/2, 3/10, 11, 28, 102⟩

/-- Engine output consisting of one zero-length note event at 0.5 s. -/
def envZeroLen : HostEnv :=
  ⟨Except.ok [⟨[⟨60, 100, 1/2, 1/2⟩]⟩], fun _ => none⟩

/-- Claim C1, counterexample: on a raw event with
`end_seconds = start_seconds = 0.5`, `run` inserts a note with
`end_tick = start_tick = 480`, not `start_tick + 1 = 481`: the translation
step applies no minimum-duration clamp. -/
theorem C1_counterexample :
    (run envZeroLen 7 9 demoSong demoParams).song.tracks =
      [⟨7, TrackType.midi, [⟨9, 0, 960, [⟨60, 100, 480, 480⟩]⟩]⟩, demoTrack] ∧
    ¬ ((480 : ℤ) = 480 + 1) := by
  constructor
  · norm_num [run, envZeroLen, demoSong, demoTrack, demoClip, demoParams,
      Song.get_track_by_id, Track.get_clip_by_id, Song.get_track_index,
      Song.tick_to_seconds, Song.seconds_to_tick, List.find?, List.findIdx,
      List.findIdx.go, allRawNotes, insertLoop, translateNote,
      List.insertIdx, round_eq]
  · decide

/-- With a positive resolution and tempo, `seconds_to_tick` is monotone: a
later time never maps to an earlier tick. -/
theorem seconds_to_tick_mono (song : Song) (h_res : 0 < song.resolution)
    (h_bpm : 0 < song.bpm) {a b : ℚ} (h : a ≤ b) :
    song.seconds_to_tick a ≤ song.seconds_to_tick b := by
  unfold Song.seconds_to_tick
  rw [round_eq, round_eq]
  apply Int.floor_mono
  have h1 : a * song.resolution * song.bpm ≤ b * song.resolution * song.bpm := by
    apply mul_le_mul_of_nonneg_right _ h_bpm.le
    exact mul_le_mul_of_nonneg_right h h_res.le
  linarith

/-- Claim C1 (amended): the translation step applies no clamp at all: the
inserted note's `end_tick` is exactly the rounded conversion of its absolute
offset, and a raw event with `end_seconds ≤ start_seconds` yields a note with
`end_tick ≤ start_tick` (not `start_tick + 1`). -/
theorem C1_amended_no_clamp (song : Song) (h_res : 0 < song.resolution)
    (h_bpm : 0 < song.bpm) (cst : ℚ) (n : RawNote)
    (h : n.end_seconds ≤ n.start_seconds) :
    (translateNote song cst n).end_tick =
      song.seconds_to_tick (n.end_seconds + cst) ∧
    (translateNote song cst n).end_tick ≤ (translateNote song cst n).start_tick := by
  refine ⟨rfl, ?_⟩
  exact seconds_to_tick_mono song h_res h_bpm (by linarith)

/-- Witness for `C1_amended_no_clamp` at the concrete zero-length event. -/
theorem C1_amended_no_clamp_witness :
    (0 : ℚ) < demoSong.resolution ∧ (0 : ℚ) < demoSong.bpm ∧
    ((1 : ℚ)/2 ≤ 1/2) ∧
    ((translateNote demoSong 0 ⟨60, 100, 1/2, 1/2⟩).end_tick =
      demoSong.seconds_to_tick ((1 : ℚ)/2 + 0) ∧
     (translateNote demoSong 0 ⟨60, 100, 1/2, 1/2⟩).end_tick ≤
      (translateNote demoSong 0 ⟨60, 100, 1/2, 1/2⟩).start_tick) :=
  ⟨by norm_num [demoSong], by norm_num [demoSong], le_refl _,
    C1_amended_no_clamp demoSong (by norm_num [demoSong])
      (by norm_num [demoSong]) 0 ⟨60, 100, 1/2, 1/2⟩ (le_refl _)⟩

/-- The A440 anchor: pitch 69 maps to exactly 440 Hz. -/
theorem pitch_to_hz_69 : pitch_to_hz 69 = 440 := by
  unfold pitch_to_hz
  rw [show (((69 : ℤ) : ℝ) - 69) / 12 = 0 by norm_num, Real.rpow_zero]
  norm_num

/-- Claim C2, counterexample: at `minPitch = maxPitch = 69` (a valid pitch
pair), the derived window `[floor 440, ceil 440] = [440, 440]` equals the
interval `[pitch_to_hz 69, pitch_to_hz 69]` -- the rounding does not widen it,
so the window does not strictly contain the interval. -/
theorem C2_counterexample :
    pitch_to_hz 69 = 440 ∧ minFreqOf 69 = 440 ∧ maxFreqOf 69 = 440 ∧
    ¬ (Set.Icc (pitch_to_hz 69) (pitch_to_hz 69) ⊂
        Set.Icc ((minFreqOf 69 : ℤ) : ℝ) ((maxFreqOf 69 : ℤ) : ℝ)) := by
  have hmin : minFreqOf 69 = 440 := by
    unfold minFreqOf
    rw [pitch_to_hz_69]
    norm_num
  have hmax : maxFreqOf 69 = 440 := by
    unfold maxFreqOf
    rw [pitch_to_hz_69]
    norm_num
  refine ⟨pitch_to_hz_69, hmin, hmax, ?_⟩
  rw [pitch_to_hz_69, hmin, hmax]
  norm_num
  exact fun hss => (lt_irrefl _ hss)

/-- Claim C2 (amended): the derived window contains (never narrows) the
interval `[pitch_to_hz minPitch, pitch_to_hz maxPitch]`; containment need not
be strict, since `pitch_to_hz` can land exactly on an integer (pitch 69 maps
to 440 Hz). -/
theorem C2_amended_window_contains (pmin pmax : ℤ) (_h : pmin ≤ pmax) :
    Set.Icc (pitch_to_hz pmin) (pitch_to_hz pmax) ⊆
      Set.Icc ((minFreqOf pmin : ℤ) : ℝ) ((maxFreqOf pmax : ℤ) : ℝ) :=
  Set.Icc_subset_Icc (Int.floor_le _) (Int.le_ceil _)

/-- Witness for `C2_amended_window_contains` at the plugin's default pitch
bounds 28 and 102. -/
theorem C2_amended_window_contains_witness :
    (28 : ℤ) ≤ 102 ∧
    Set.Icc (pitch_to_hz 28) (pitch_to_hz 102) ⊆
      Set.Icc ((minFreqOf 28 : ℤ) : ℝ) ((maxFreqOf 102 : ℤ) : ℝ) :=
  ⟨by decide, C2_amended_window_contains 28 102 (by decide)⟩

/-- When the host raises no insertion fault, the insertion loop appends one
translated note per raw event and reports no error. -/
theorem insertLoop_no_fault (song : Song) (cst : ℚ) (fault : Note → Option Err)
    (hf : ∀ n, fault n = none) (acc : List Note) (raw : List RawNote) :
    insertLoop song cst fault acc raw =
      (acc ++ raw.map (translateNote song cst), none) := by
  induction raw generalizing acc with
  | nil => simp [insertLoop]
  | cons n rest ih =>
    simp only [insertLoop, hf, List.map_cons]
    rw [ih]
    simp

/-- Claim C3: with a resolved selection and a fault-free host, `run` inserts
exactly one note per raw event into the destination clip: the destination
clip's note list is the `translateNote` image of the raw event list (so its
length equals the raw event count, and duplicate raw events each contribute a
note). -/
theorem C3_one_note_per_event (env : HostEnv) (ftid fcid : ℕ) (song : Song)
    (params : Params) (entity : Entity) (rest : List Entity)
    (h_ent : params.entities = entity :: rest)
    (track : Track) (h_track : song.get_track_by_id entity.track_id = some track)
    (clip : Clip) (h_clip : track.get_clip_by_id entity.clip_id = some clip)
    (h_audio : params.clipAudioData ≠ [])
    (instruments : List Instrument)
    (h_engine : env.engineResult = Except.ok instruments)
    (h_fault : ∀ n, env.insertFault n = none) :
    (run env ftid fcid song params).song.tracks =
      song.tracks.insertIdx (song.get_track_index track.id)
        ⟨ftid, TrackType.midi,
          [⟨fcid, clip.clip_start_tick, clip.clip_end_tick,
            (allRawNotes instruments).map
              (translateNote song (song.tick_to_seconds clip.clip_start_tick))⟩]⟩ ∧
    ((allRawNotes instruments).map
        (translateNote song (song.tick_to_seconds clip.clip_start_tick))).length =
      (allRawNotes instruments).length := by
  obtain ⟨ad, ads, h_eq⟩ := List.exists_cons_of_ne_nil h_audio
  refine ⟨?_, List.length_map _ _⟩
  simp only [run, h_ent, h_track, h_clip, h_eq, h_engine,
    insertLoop_no_fault song _ env.insertFault h_fault [] (allRawNotes instruments),
    List.nil_append]

/-- Engine output with two identical raw note events. -/
def envDupNotes : HostEnv :=
  ⟨Except.ok [⟨[⟨60, 100, 0, 1/2⟩, ⟨60, 100, 0, 1/2⟩]⟩], fun _ => none⟩

/-- Witness for `C3_one_note_per_event`: two identical raw events both yield
an inserted note. -/
theorem C3_one_note_per_event_witness :
    demoParams.entities = ⟨0, 0⟩ :: [] ∧
    demoSong.get_track_by_id 0 = some demoTrack ∧
    demoTrack.get_clip_by_id 0 = some demoClip ∧
    demoParams.clipAudioData ≠ [] ∧
    envDupNotes.engineResult =
      Except.ok [⟨[⟨60, 100, 0, 1/2⟩, ⟨60, 100, 0, 1/2⟩]⟩] ∧
    ((run envDupNotes 7 9 demoSong demoParams).song.tracks =
      demoSong.tracks.insertIdx (demoSong.get_track_index demoTrack.id)
        ⟨7, TrackType.midi,
          [⟨9, demoClip.clip_start_tick, demoClip.clip_end_tick,
            (allRawNotes [⟨[⟨60, 100, 0, 1/2⟩, ⟨60, 100, 0, 1/2⟩]⟩]).map
              (translateNote demoSong
                (demoSong.tick_to_seconds demoClip.clip_start_tick))⟩]⟩ ∧
     ((allRawNotes [⟨[⟨60, 100, 0, 1/2⟩, ⟨60, 100, 0, 1/2⟩]⟩]).map
        (translateNote demoSong
          (demoSong.tick_to_seconds demoClip.clip_start_tick))).length =
      (allRawNotes [⟨[⟨60, 100, 0, 1/2⟩, ⟨60, 100, 0, 1/2⟩]⟩]).length) :=
  ⟨rfl, rfl, rfl, by decide, rfl,
    C3_one_note_per_event envDupNotes 7 9 demoSong demoParams ⟨0, 0⟩ [] rfl
      demoTrack rfl demoClip rfl (by decide)
      [⟨[⟨60, 100, 0, 1/2⟩, ⟨60, 100, 0, 1/2⟩]⟩] rfl (fun _ => rfl)⟩

/-- Claim C4: a missing source track or a missing source clip makes `run`
raise before any mutation: the song is returned unchanged, an exception
propagates, and no temporary file was created. -/
theorem C4_missing_track_or_clip_aborts (env : HostEnv) (ftid fcid : ℕ)
    (song : Song) (params : Params) (entity : Entity) (rest : List Entity)
    (h_ent : params.entities = entity :: rest)
    (h_miss : song.get_track_by_id entity.track_id = none ∨
      ∃ track, song.get_track_by_id entity.track_id = some track ∧
        track.get_clip_by_id entity.clip_id = none) :
    (run env ftid fcid song params).song = song ∧
    (run env ftid fcid song params).raised ≠ none ∧
    (run env ftid fcid song params).tmpCreated = false := by
  rcases h_miss with h | ⟨track, h1, h2⟩
  · simp [run, h_ent, h]
  · simp [run, h_ent, h1, h2]

/-- A song with no tracks at all. -/
def demoSongNoTracks : Song := ⟨[], 480, 120⟩

/-- Host behaviour whose engine call raises. -/
def envEngineFail : HostEnv := ⟨Except.error Err.engine_failure, fun _ => none⟩

/-- Witness for `C4_missing_track_or_clip_aborts`: looking up track 0 in a
song with no tracks fails and `run` aborts without mutation. -/
theorem C4_missing_track_or_clip_aborts_witness :
    demoParams.entities = ⟨0, 0⟩ :: [] ∧
    demoSongNoTracks.get_track_by_id 0 = none ∧
    ((run envEngineFail 7 9 demoSongNoTracks demoParams).song = demoSongNoTracks ∧
     (run envEngineFail 7 9 demoSongNoTracks demoParams).raised ≠ none ∧
     (run envEngineFail 7 9 demoSongNoTracks demoParams).tmpCreated = false) :=
  ⟨rfl, rfl,
    C4_missing_track_or_clip_aborts envEngineFail 7 9 demoSongNoTracks
      demoParams ⟨0, 0⟩ [] rfl (Or.inl rfl)⟩

/-- Claim C5: once the selection is resolved and the audio payload staged,
any failure inside the guarded phase is swallowed: `run` never re-raises, and
the returned song keeps exactly the mutations performed before the failure
point -- nothing on engine failure, and the already-created destination track
and clip with the notes inserted so far when an insertion fault occurs (no
rollback). -/
theorem C5_failures_swallowed_no_rollback (env : HostEnv) (ftid fcid : ℕ)
    (song : Song) (params : Params) (entity : Entity) (rest : List Entity)
    (h_ent : params.entities = entity :: rest)
    (track : Track) (h_track : song.get_track_by_id entity.track_id = some track)
    (clip : Clip) (h_clip : track.get_clip_by_id entity.clip_id = some clip)
    (h_audio : params.clipAudioData ≠ []) :
    (∀ e, env.engineResult = Except.error e →
      run env ftid fcid song params = ⟨song, none, true, true⟩) ∧
    (∀ instruments, env.engineResult = Except.ok instruments →
      run env ftid fcid song params =
        ⟨{ song with
            tracks := song.tracks.insertIdx (song.get_track_index track.id)
                (Track.mk ftid TrackType.midi
                  [Clip.mk fcid clip.clip_start_tick clip.clip_end_tick
                    (insertLoop song (song.tick_to_seconds clip.clip_start_tick)
                      env.insertFault [] (allRawNotes instruments)).1]) },
          none, true, true⟩) := by
  obtain ⟨ad, ads, h_eq⟩ := List.exists_cons_of_ne_nil h_audio
  constructor
  · intro e h_eng
    simp [run, h_ent, h_track, h_clip, h_eq, h_eng]
  · intro instruments h_eng
    simp [run, h_ent, h_track, h_clip, h_eq, h_eng]

/-- Witness for `C5_failures_swallowed_no_rollback`: an engine failure is
swallowed and the song survives unchanged. -/
theorem C5_failures_swallowed_no_rollback_witness :
    demoParams.entities = ⟨0, 0⟩ :: [] ∧
    demoSong.get_track_by_id 0 = some demoTrack ∧
    demoTrack.get_clip_by_id 0 = some demoClip ∧
    demoParams.clipAudioData ≠ [] ∧
    envEngineFail.engineResult = Except.error Err.engine_failure ∧
    run envEngineFail 7 9 demoSong demoParams = ⟨demoSong, none, true, true⟩ :=
  ⟨rfl, rfl, rfl, by decide, rfl,
    (C5_failures_swallowed_no_rollback envEngineFail 7 9 demoSong demoParams
        ⟨0, 0⟩ [] rfl demoTrack rfl demoClip rfl (by decide)).1
      Err.engine_failure rfl⟩

/-- Claim C6: whenever `run` reaches the staging of the temporary audio file
(selection resolved, audio payload present), the temporary file is created and
is closed again before `run` returns, whether the guarded phase succeeds or
fails. -/
theorem C6_tmp_released (env : HostEnv) (ftid fcid : ℕ) (song : Song)
    (params : Params) (entity : Entity) (rest : List Entity)
    (h_ent : params.entities = entity :: rest)
    (track : Track) (h_track : song.get_track_by_id entity.track_id = some track)
    (clip : Clip) (h_clip : track.get_clip_by_id entity.clip_id = some clip)
    (h_audio : params.clipAudioData ≠ []) :
    (run env ftid fcid song params).tmpCreated = true ∧
    (run env ftid fcid song params).tmpClosed = true := by
  obtain ⟨ad, ads, h_eq⟩ := List.exists_cons_of_ne_nil h_audio
  cases h_eng : env.engineResult <;>
    simp [run, h_ent, h_track, h_clip, h_eq, h_eng]

/-- Witness for `C6_tmp_released` on the successful transcription path. -/
theorem C6_tmp_released_witness :
    demoParams.entities = ⟨0, 0⟩ :: [] ∧
    demoSong.get_track_by_id 0 = some demoTrack ∧
    demoTrack.get_clip_by_id 0 = some demoClip ∧
    demoParams.clipAudioData ≠ [] ∧
    ((run envZeroLen 7 9 demoSong demoParams).tmpCreated = true ∧
     (run envZeroLen 7 9 demoSong demoParams).tmpClosed = true) :=
  ⟨rfl, rfl, rfl, by decide,
    C6_tmp_released envZeroLen 7 9 demoSong demoParams ⟨0, 0⟩ [] rfl
      demoTrack rfl demoClip rfl (by decide)⟩

/-- Claim C9: with an empty injected `clipAudioData` list, evaluating the
temp-file suffix argument raises an uncaught `IndexError` before the guarded
phase and before any temporary file exists: the exception propagates, the song
is unchanged, and no temporary file was created. -/
theorem C9_empty_audio_aborts (env : HostEnv) (ftid fcid : ℕ) (song : Song)
    (params : Params) (entity : Entity) (rest : List Entity)
    (h_ent : params.entities = entity :: rest)
    (track : Track) (h_track : song.get_track_by_id entity.track_id = some track)
    (clip : Clip) (h_clip : track.get_clip_by_id entity.clip_id = some clip)
    (h_audio : params.clipAudioData = []) :
    run env ftid fcid song params = ⟨song, some Err.index_error, false, false⟩ := by
  simp [run, h_ent, h_track, h_clip, h_audio]

/-- Params selecting `demoTrack`/`demoClip` but carrying no audio payload. -/
def demoParamsNoAudio : Params := ⟨[⟨0, 0⟩], [], 1/2, 3/10, 11, 28, 102⟩

/-- Witness for `C9_empty_audio_aborts` at concrete inputs. -/
theorem C9_empty_audio_aborts_witness :
    demoParamsNoAudio.entities = ⟨0, 0⟩ :: [] ∧
    demoSong.get_track_by_id 0 = some demoTrack ∧
    demoTrack.get_clip_by_id 0 = some demoClip ∧
    demoParamsNoAudio.clipAudioData = [] ∧
    run envEngineFail 7 9 demoSong demoParamsNoAudio =
      ⟨demoSong, some Err.index_error, false, false⟩ :=
  ⟨rfl, rfl, rfl, rfl,
    C9_empty_audio_aborts envEngineFail 7 9 demoSong demoParamsNoAudio
      ⟨0, 0⟩ [] rfl demoTrack rfl demoClip rfl rfl⟩

/-- Claim C7: in a fixed-tempo region with positive resolution and tempo, the
song collaborator's conversions round-trip: converting a tick to seconds and
back lands within one tick of the original (in fact exactly on it). -/
theorem C7_tick_second_roundtrip (song : Song) (h_res : 0 < song.resolution)
    (h_bpm : 0 < song.bpm) (t : ℤ) :
    |song.seconds_to_tick (song.tick_to_seconds t) - t| ≤ 1 := by
  have hr : song.resolution ≠ 0 := ne_of_gt h_res
  have hb : song.bpm ≠ 0 := ne_of_gt h_bpm
  have key : song.tick_to_seconds t * song.resolution * song.bpm / 60 = (t : ℚ) := by
    unfold Song.tick_to_seconds
    field_simp
    ring
  unfold Song.seconds_to_tick
  rw [key, round_intCast]
  simp

/-- Witness for `C7_tick_second_roundtrip` on `demoSong` at tick 7. -/
theorem C7_tick_second_roundtrip_witness :
    (0 : ℚ) < demoSong.resolution ∧ (0 : ℚ) < demoSong.bpm ∧
    |demoSong.seconds_to_tick (demoSong.tick_to_seconds 7) - 7| ≤ 1 :=
  ⟨by norm_num [demoSong], by norm_num [demoSong],
    C7_tick_second_roundtrip demoSong (by norm_num [demoSong])
      (by norm_num [demoSong]) 7⟩

/-- Inserting an element at any index keeps the original list as a sublist:
every pre-existing element survives unchanged and in order. -/
theorem sublist_insertIdx : ∀ (l : List α) (n : ℕ) (a : α),
    l.Sublist (l.insertIdx n a)
  | l, 0, a => by
    rw [List.insertIdx_zero]
    exact List.sublist_cons_self a l
  | [], n + 1, a => by
    rw [List.insertIdx_succ_nil]
  | x :: xs, n + 1, a => by
    rw [List.insertIdx_succ_cons]
    exact List.Sublist.cons₂ x (sublist_insertIdx xs n a)

/-- Claim C8: on every invocation, successful or failed, the pre-existing
tracks of the song -- the source track and clip among them -- survive in the
result unchanged and in order; the only structural change is the insertion of
the newly created destination track. -/
theorem C8_source_not_mutated (env : HostEnv) (ftid fcid : ℕ) (song : Song)
    (params : Params) :
    song.tracks.Sublist (run env ftid fcid song params).song.tracks := by
  unfold run
  split
  · exact List.Sublist.refl _
  · split
    · exact List.Sublist.refl _
    · split
      · exact List.Sublist.refl _
      · split
        · exact List.Sublist.refl _
        · split
          · exact List.Sublist.refl _
          · exact sublist_insertIdx _ _ _

/-- Claim C10: `run` reads only the first trigger entity and the first audio
payload: two params sharing those heads (and the scalar knobs) produce
identical outcomes, whatever extra selections or payloads follow. -/
theorem C10_head_only_dependence (env : HostEnv) (ftid fcid : ℕ) (song : Song)
    (ents1 ents2 : List Entity) (auds1 auds2 : List AudioData)
    (o fr : ℚ) (m pmin pmax : ℤ)
    (h_e : ents1.head? = ents2.head?) (h_a : auds1.head? = auds2.head?) :
    run env ftid fcid song ⟨ents1, auds1, o, fr, m, pmin, pmax⟩ =
      run env ftid fcid song ⟨ents2, auds2, o, fr, m, pmin, pmax⟩ := by
  cases ents1 with
  | nil =>
    cases ents2 with
    | nil => rfl
    | cons e2 t2 => simp at h_e
  | cons e1 t1 =>
    cases ents2 with
    | nil => simp at h_e
    | cons e2 t2 =>
      simp only [List.head?_cons, Option.some.injEq] at h_e
      subst h_e
      cases auds1 with
      | nil =>
        cases auds2 with
        | nil => rfl
        | cons a2 s2 => simp at h_a
      | cons a1 s1 =>
        cases auds2 with
        | nil => simp at h_a
        | cons a2 s2 =>
          simp only [List.head?_cons, Option.some.injEq] at h_a
          subst h_a
          rfl

/-- Witness for `C10_head_only_dependence`: adding a second selected entity
and a second audio payload leaves the outcome unchanged. -/
theorem C10_head_only_dependence_witness :
    ([⟨0, 0⟩] : List Entity).head? = ([⟨0, 0⟩, ⟨5, 5⟩] : List Entity).head? ∧
    ([⟨0, []⟩] : List AudioData).head? =
      ([⟨0, []⟩, ⟨1, [2]⟩] : List AudioData).head? ∧
    run envZeroLen 7 9 demoSong ⟨[⟨0, 0⟩], [⟨0, []⟩], 1/2, 3/10, 11, 28, 102⟩ =
      run envZeroLen 7 9 demoSong
        ⟨[⟨0, 0⟩, ⟨5, 5⟩], [⟨0, []⟩, ⟨1, [2]⟩], 1/2, 3/10, 11, 28, 102⟩ :=
  ⟨rfl, rfl,
    C10_head_only_dependence envZeroLen 7 9 demoSong _ _ _ _ _ _ _ _ _ rfl rfl⟩
